import Mathlib

/-!
Shallow embedding of the Rxlab contact-form backend.

The repository contains three near-duplicate HTTP handlers that submit a
lead record to the Brevo CRM and remediate duplicate-contact conflicts:

* `src/api/brevo.js`, first variant (`handleBrevoResponse` + `handler`,
  lines 1-413): embedded here as `handleBrevoResponse` and
  `handlerAFromLead` / `handlerA`;
* `src/api/brevo.js`, second variant (lines 414-661): embedded as
  `handlerBFromLead` / `handlerB`;
* `src/server.js` (`app.post('/api/brevo')`): embedded as
  `serverCore` / `serverRoute`.

JavaScript string primitives (`trim`, `toLowerCase`, `includes`,
`split(' ')`, `join(' ')`, `parseInt`, the separator-stripping regex
`/[\s\-\(\)\.]/g` and the e-mail regex) are modelled explicitly on
`List Char`.  Remote calls are modelled by a caller-supplied oracle
`respond : σ → CrmCall → BrevoResponse × σ`; the handler returns its HTTP
result together with the ordered trace of outbound CRM calls it issued.
A `fetch` response body can be read only once; a second read rejects.
This is modelled where it matters (the first variant re-reads the PUT
error body after `handleBrevoResponse` has consumed it, which rejects
exactly when the response had a JSON content type).
-/

namespace Rxlab

/-! ## JavaScript string primitives -/

/-- The characters matched by `\s` in the source's regexes (ASCII part;
the handlers never receive the exotic Unicode spaces). -/
def jsWs (c : Char) : Bool :=
  c == ' ' || c == '\t' || c == '\n' || c == '\r' || c == '\x0b' || c == '\x0c'

/-- JavaScript `String.prototype.trim`. -/
def jsTrim (s : String) : String :=
  String.mk (((s.data.dropWhile jsWs).reverse.dropWhile jsWs).reverse)

/-- JavaScript `String.prototype.toLowerCase` (ASCII; the source only
lower-cases e-mail addresses and CRM error messages). -/
def jsToLower (s : String) : String :=
  String.mk (s.data.map Char.toLower)

/-- Whether `p` occurs as a contiguous infix of `l`. -/
def listIsInfix (p : List Char) : List Char → Bool
  | [] => p.isEmpty
  | x :: xs => p.isPrefixOf (x :: xs) || listIsInfix p xs

/-- JavaScript `String.prototype.includes`. -/
def jsIncludes (s pat : String) : Bool :=
  listIsInfix pat.data s.data

/-- JavaScript `String.prototype.startsWith`. -/
def jsStartsWith (s pat : String) : Bool :=
  pat.data.isPrefixOf s.data

/-- JavaScript `String.prototype.split(c)` for a one-character separator:
splits on every occurrence, preserving empty segments. -/
def splitOnCharList (c : Char) : List Char → List (List Char)
  | [] => [[]]
  | x :: xs =>
    if x = c then [] :: splitOnCharList c xs
    else
      match splitOnCharList c xs with
      | [] => [[x]]
      | h :: t => (x :: h) :: t

/-- The source's `name.split(' ')`, as a list of strings. -/
def jsSplitOnSpace (s : String) : List String :=
  (splitOnCharList ' ' s.data).map String.mk

/-- JavaScript `Array.prototype.join(sep)`. -/
def joinWith (sep : String) : List String → String
  | [] => ""
  | [x] => x
  | x :: y :: xs => x ++ sep ++ joinWith sep (y :: xs)

/-- Concatenation with a one-character separator, the `List Char` mirror of
`joinWith`. -/
def joinWithChar (c : Char) : List (List Char) → List Char
  | [] => []
  | [x] => x
  | x :: y :: xs => x ++ c :: joinWithChar c (y :: xs)

/-- JavaScript truthiness default `s || d` for strings. -/
def jsOrStr (s d : String) : String :=
  if s = "" then d else s

/-- JavaScript optional-value truthiness: a missing field and an empty
string are both falsy. -/
def jsOptTruthy (o : Option String) : Option String :=
  match o with
  | some s => if s = "" then none else some s
  | none => none

/-- JavaScript `o?.f || d` for an optional string. -/
def jsOptOr (o : Option String) (d : String) : String :=
  match jsOptTruthy o with
  | some s => s
  | none => d

/-- The maximal leading decimal-digit prefix of `l`, as a number
(`none` when there is no leading digit). -/
def jsDigitsPrefixNat (l : List Char) : Option Nat :=
  let ds := l.takeWhile Char.isDigit
  if ds.isEmpty then none
  else some (ds.foldl (fun a c => a * 10 + (c.toNat - 48)) 0)

/-- JavaScript `parseInt(s)` (radix 10): skip leading whitespace, optional
sign, maximal digit prefix; `none` models `NaN`. -/
def jsParseInt (s : String) : Option Int :=
  match s.data.dropWhile jsWs with
  | '+' :: rest => (jsDigitsPrefixNat rest).map Int.ofNat
  | '-' :: rest => (jsDigitsPrefixNat rest).map (fun n => -(Int.ofNat n))
  | rest => (jsDigitsPrefixNat rest).map Int.ofNat

/-- JavaScript `s.substring(0, n)`. -/
def jsTake (n : Nat) (s : String) : String :=
  String.mk (s.data.take n)

/-- The stripping `phone.replace(/[\s\-\(\)\.]/g, '')` of `src/api/brevo.js` line 169:
drop whitespace and the separator characters `-`, `(`, `)`, `.`. -/
def stripSeparators (s : String) : String :=
  String.mk (s.data.filter (fun c =>
    !(jsWs c || c == '-' || c == '(' || c == ')' || c == '.')))

/-- The replacement `phoneLocal.replace(/^\+?\d{1,3}/, '')` (line 175): an optional `+`
followed by one to three digits is removed from the front when present. -/
def stripPlusCountryCode (s : String) : String :=
  match s.data with
  | '+' :: rest =>
    let d := min 3 (rest.takeWhile Char.isDigit).length
    if d = 0 then s else String.mk (rest.drop d)
  | l =>
    let d := min 3 (l.takeWhile Char.isDigit).length
    if d = 0 then s else String.mk (l.drop d)

/-- The replacement `phoneLocal.replace(/^00\d{1,3}/, '')` (line 178). -/
def stripDoubleZeroCountryCode (s : String) : String :=
  match s.data with
  | '0' :: '0' :: rest =>
    let d := min 3 (rest.takeWhile Char.isDigit).length
    if d = 0 then s else String.mk (rest.drop d)
  | _ => s

/-- All characters of `l` are outside `\s`. -/
def noWsList (l : List Char) : Bool :=
  l.all (fun c => !jsWs c)

/-- The test `emailRegex.test(email)` for `/^[^\s@]+@[^\s@]+\.[^\s@]+$/`: exactly one
`@`, a nonempty whitespace-free local part, and a nonempty whitespace-free
domain containing a dot that is neither its first nor its last character.
(The regex backtracks: `[^\s@]+` matches dots too, so any interior dot of
the domain suffices — `x@a.b.` and `x@.a.b` are accepted, as `a` + `.` +
`b.` resp. `.a` + `.` + `b`; only a domain whose sole dots are its first
or last character, such as `x@.b` or `x@a.`, is rejected.) -/
def emailRegexTest (s : String) : Bool :=
  match splitOnCharList '@' s.data with
  | [a, rest] =>
    !a.isEmpty && noWsList a && !rest.isEmpty && noWsList rest &&
      rest.tail.dropLast.contains '.'
  | _ => false

/-! ## Data model -/

/-- A JSON body field as the handlers see it: absent, `null`, or a string.
(Non-string JSON values would make `.trim()` throw; the claims under study
only concern absent/null/string fields.) -/
inductive JField where
  | missing
  | null
  | str (s : String)
deriving DecidableEq

/-- The inbound request body, with both the English field names and the
Spanish aliases read by `src/server.js`. -/
structure Body where
  name : JField
  nombre : JField
  company : JField
  empresa : JField
  email : JField
  emailEs : JField
  phone : JField
  telefono : JField
  message : JField
  mensaje : JField
deriving DecidableEq

/-- The truthy value of a field: `null`, absence and `""` are all falsy. -/
def truthyVal (f : JField) : Option String :=
  match f with
  | .str s => if s = "" then none else some s
  | _ => none

/-- The default `(f || '')` as the handlers apply it to a body field. -/
def fieldOrEmpty (f : JField) : String :=
  (truthyVal f).getD ""

/-- The bilingual fallback chain `(f || g || '')` of `src/server.js`. -/
def fieldOrAlias (f g : JField) : String :=
  match truthyVal f with
  | some s => s
  | none => fieldOrEmpty g

/-- The sanitized lead data after extraction (lines 95-99 of the first
variant): trimmed fields, lower-cased e-mail. -/
structure Lead where
  name : String
  email : String
  phone : String
  company : String
  message : String
deriving DecidableEq

/-- Field extraction of both `src/api/brevo.js` variants (English names
only, each `(req.body.x || '').trim()`, e-mail lower-cased). -/
def extractAB (b : Body) : Lead where
  name := jsTrim (fieldOrEmpty b.name)
  email := jsToLower (jsTrim (fieldOrEmpty b.email))
  phone := jsTrim (fieldOrEmpty b.phone)
  company := jsTrim (fieldOrEmpty b.company)
  message := jsTrim (fieldOrEmpty b.message)

/-- Field extraction of `src/server.js` lines 32-36: English name first,
Spanish alias as fallback. -/
def extractServer (b : Body) : Lead where
  name := jsTrim (fieldOrAlias b.name b.nombre)
  email := jsToLower (jsTrim (fieldOrAlias b.email b.emailEs))
  phone := jsTrim (fieldOrAlias b.phone b.telefono)
  company := jsTrim (fieldOrAlias b.company b.empresa)
  message := jsTrim (fieldOrAlias b.message b.mensaje)

/-- A Brevo contact-attribute value; `TELEFONO` is a number when
`parseInt` succeeds and nonzero, otherwise the raw string. -/
inductive AttrVal where
  | num (n : Int)
  | str (s : String)
deriving DecidableEq

/-- The JSON payload of an outbound contact call: attributes keep their
insertion order. -/
structure ContactPayload where
  email : String
  attributes : List (String × AttrVal)
  listIds : List Int
  updateEnabled : Bool
deriving DecidableEq

inductive HttpMethod where
  | post
  | put
deriving DecidableEq

/-- The Brevo endpoints the handlers call. -/
inductive Endpoint where
  | contacts
  | contactByEmail (email : String)
  | smtpEmail
deriving DecidableEq

/-- One outbound CRM call (the notification e-mail carries no contact
payload). -/
structure CrmCall where
  method : HttpMethod
  endpoint : Endpoint
  payload : Option ContactPayload
deriving DecidableEq

/-- A CRM response as the handlers observe it: status, whether the
`content-type` header includes `application/json`, the body text, whether
`JSON.parse` of that text succeeds, and the parsed `code` / `message` /
`id` fields when it does. -/
structure BrevoResponse where
  status : Nat
  ctJson : Bool
  body : String
  parses : Bool
  code : Option String
  message : Option String
  id : Option String
deriving DecidableEq

/-- The HTTP response a handler sends to the client: status plus the JSON
body fields any of the three handlers ever set (`none` = field absent). -/
structure HttpOut where
  status : Nat
  ok : Option Bool
  success : Option Bool
  message : Option String
  error : Option String
  code : Option String
  bodyStatus : Option Nat
  id : Option String
  details : Option String
  data : Option Lead
deriving DecidableEq

/-- A handler run: the client-visible result, the ordered trace of
outbound calls, and the oracle state after the run. -/
structure Run (σ : Type) where
  out : HttpOut
  calls : List CrmCall
  state : σ
deriving DecidableEq

/-- The environment variables consulted by the handlers. -/
structure Env where
  apiKey : Option String
  listId : Option String
deriving DecidableEq

/-- The list id `parseInt(process.env.BREVO_LIST_ID) || d` (`d` is 2 in the
serverless variants, 4 in `src/server.js`). -/
def listIdOfEnv (d : Int) (e : Env) : Int :=
  match e.listId with
  | none => d
  | some s =>
    match jsParseInt s with
    | some n => if n = 0 then d else n
    | none => d

/-! ## Name splitting and payload builders -/

/-- The first-name value `nameParts[0] || name` with `nameParts = name.split(' ')`. -/
def nombreOf (name : String) : String :=
  jsOrStr ((jsSplitOnSpace name).headD "") name

/-- The last-name value `nameParts.slice(1).join(' ') || ''`. -/
def apellidosOf (name : String) : String :=
  jsOrStr (joinWith " " (jsSplitOnSpace name).tail) ""

/-- The cleaned "local" phone number of the first variant (lines 166-184):
strip separators, drop a leading `+`/`00` country code of one to three
digits, and fall back to the merely-stripped number when the result is
empty or shorter than 7 characters. -/
def phoneLocalOf (phone : String) : String :=
  let cleaned := stripSeparators phone
  let pl :=
    if jsStartsWith cleaned "+" then stripPlusCountryCode cleaned
    else if jsStartsWith cleaned "00" then stripDoubleZeroCountryCode cleaned
    else cleaned
  if pl = "" ∨ pl.length < 7 then cleaned else pl

/-- The value `parseInt(phoneLocal) || phoneLocal` stored in the `TELEFONO` attribute. -/
def telefonoVal (pl : String) : AttrVal :=
  match jsParseInt pl with
  | some n => if n = 0 then .str pl else .num n
  | none => .str pl

/-- The `contactData` payload of the first `src/api/brevo.js` variant (lines 150-195):
`NOMBRE`/`APELLIDOS`, then `EMPRESA` if present, then `TELEFONO` and `SMS`
(both derived from the local phone number) if a phone was given. -/
def contactDataA (lead : Lead) (listId : Int) : ContactPayload :=
  let base := [("NOMBRE", AttrVal.str (nombreOf lead.name)),
               ("APELLIDOS", AttrVal.str (apellidosOf lead.name))]
  let withCompany :=
    if lead.company = "" then base
    else base ++ [("EMPRESA", AttrVal.str lead.company)]
  let attrs :=
    if lead.phone = "" then withCompany
    else
      let pl := phoneLocalOf lead.phone
      withCompany ++ [("TELEFONO", telefonoVal pl), ("SMS", AttrVal.str pl)]
  ⟨lead.email, attrs, [listId], true⟩

/-- The `contactDataWithBackup` payload of the first variant (lines 320-334): the phone
moves to the non-unique `PHONE_BACKUP` attribute. -/
def contactDataBackup (lead : Lead) (listId : Int) (pl : String) : ContactPayload :=
  let base := [("NOMBRE", AttrVal.str (nombreOf lead.name)),
               ("APELLIDOS", AttrVal.str (apellidosOf lead.name)),
               ("PHONE_BACKUP", AttrVal.str pl)]
  let attrs :=
    if lead.company = "" then base
    else base ++ [("EMPRESA", AttrVal.str lead.company)]
  ⟨lead.email, attrs, [listId], true⟩

/-- The E.164 value `phone.startsWith('+') ? phone : '+' + phone` (second variant and
`src/server.js`). -/
def phoneE164 (phone : String) : String :=
  if jsStartsWith phone "+" then phone else "+" ++ phone

/-- The `contactData` payload of the second `src/api/brevo.js` variant (lines 478-501):
`FIRSTNAME`/`LASTNAME`, then `SMS` if a phone was given, then `COMPANY`. -/
def contactDataB (lead : Lead) (listId : Int) : ContactPayload :=
  let base := [("FIRSTNAME", AttrVal.str (nombreOf lead.name)),
               ("LASTNAME", AttrVal.str (apellidosOf lead.name))]
  let withPhone :=
    if lead.phone = "" then base
    else base ++ [("SMS", AttrVal.str (phoneE164 lead.phone))]
  let attrs :=
    if lead.company = "" then withPhone
    else withPhone ++ [("COMPANY", AttrVal.str lead.company)]
  ⟨lead.email, attrs, [listId], true⟩

/-- The `contactDataWithoutPhone` payload of the second variant (lines 599-611). -/
def contactDataBNoPhone (lead : Lead) (listId : Int) : ContactPayload :=
  let base := [("FIRSTNAME", AttrVal.str (nombreOf lead.name)),
               ("LASTNAME", AttrVal.str (apellidosOf lead.name))]
  let attrs :=
    if lead.company = "" then base
    else base ++ [("COMPANY", AttrVal.str lead.company)]
  ⟨lead.email, attrs, [listId], true⟩

/-- The `contactData` payload of `src/server.js` (lines 82-109): `NOMBRE`/`APELLIDOS`,
then `EMPRESA`, then the E.164 phone as `SMS`. -/
def contactDataS (lead : Lead) (listId : Int) : ContactPayload :=
  let base := [("NOMBRE", AttrVal.str (nombreOf lead.name)),
               ("APELLIDOS", AttrVal.str (apellidosOf lead.name))]
  let withCompany :=
    if lead.company = "" then base
    else base ++ [("EMPRESA", AttrVal.str lead.company)]
  let attrs :=
    if lead.phone = "" then withCompany
    else withCompany ++ [("SMS", AttrVal.str (phoneE164 lead.phone))]
  ⟨lead.email, attrs, [listId], true⟩

/-- The `contactDataWithoutPhone` payload of `src/server.js` (lines 165-178). -/
def contactDataSNoPhone (lead : Lead) (listId : Int) : ContactPayload :=
  let base := [("NOMBRE", AttrVal.str (nombreOf lead.name)),
               ("APELLIDOS", AttrVal.str (apellidosOf lead.name))]
  let attrs :=
    if lead.company = "" then base
    else base ++ [("EMPRESA", AttrVal.str lead.company)]
  ⟨lead.email, attrs, [listId], true⟩

/-! ## Response classification of the first variant -/

/-- The value `handleBrevoResponse` returns: the fields of the JavaScript
object that the rest of the handler reads (`ok`, `status`, `code`,
`message`; success objects also carry `success: true`). -/
structure BrevoResult where
  ok : Bool
  bodyStatus : Option Nat
  code : Option String
  message : String
deriving DecidableEq

/-- The classifier `handleBrevoResponse` (`src/api/brevo.js` lines 5-82).  A 204 is
success without reading the body; 200/201 are success whether or not the
body is JSON or parses — except that a 200/201 with a JSON content type
and an empty body falls through to the error section, whose second
`response.text()` read rejects (body already consumed), landing in the
parse-error catch.  Non-2xx statuses (and every other status) take the
error section: with a JSON content type the body is read and parsed into
`code`/`message`; otherwise the result is the generic unknown error. -/
def handleBrevoResponse (r : BrevoResponse) : BrevoResult :=
  if r.status = 204 then
    ⟨true, some 204, none, "Contacto creado o actualizado correctamente en Brevo"⟩
  else if r.status = 200 ∨ r.status = 201 then
    if r.ctJson then
      if r.body = "" then
        ⟨false, some r.status, none, "Error al procesar respuesta de Brevo"⟩
      else if r.parses then ⟨true, none, none, "Contacto creado exitosamente"⟩
      else ⟨true, none, none, "Contacto procesado correctamente en Brevo"⟩
    else ⟨true, none, none, "Contacto creado exitosamente"⟩
  else
    if r.ctJson then
      if r.body = "" then ⟨false, some r.status, none, "Error desconocido"⟩
      else if r.parses then
        ⟨false, some r.status, jsOptTruthy r.code, jsOptOr r.message "Error desconocido"⟩
      else ⟨false, some r.status, none, "Error al procesar respuesta de Brevo"⟩
    else ⟨false, some r.status, none, "Error desconocido"⟩

/-! ## Validation -/

/-- The validation errors shared by the two `src/api/brevo.js` variants,
in evaluation order. -/
inductive VErr where
  | name
  | email
  | emailFormat
  | phone
deriving DecidableEq

/-- First failing validation of lines 111-132 (both serverless variants):
name empty or shorter than 2; e-mail empty; e-mail format; phone present
but shorter than 7 characters (raw length, separators included). -/
def firstVErrAB (lead : Lead) : Option VErr :=
  if lead.name = "" ∨ lead.name.length < 2 then some .name
  else if lead.email = "" then some .email
  else if !emailRegexTest lead.email then some .emailFormat
  else if lead.phone ≠ "" ∧ lead.phone.length < 7 then some .phone
  else none

/-- The `src/server.js` validation errors (lines 47-63): same name/e-mail
rules, no phone rule, and a required message of at least 10 characters. -/
inductive SVErr where
  | name
  | email
  | emailFormat
  | message
deriving DecidableEq

/-- First failing validation of `src/server.js`. -/
def firstVErrServer (lead : Lead) : Option SVErr :=
  if lead.name = "" ∨ lead.name.length < 2 then some .name
  else if lead.email = "" then some .email
  else if !emailRegexTest lead.email then some .emailFormat
  else if lead.message = "" ∨ lead.message.length < 10 then some .message
  else none

/-! ## Handler of the first `src/api/brevo.js` variant -/

/-- Message constants of the handlers (named so that goals about the
handlers stay small; each is the source's literal). -/
def msgUnknown : String := "Error desconocido"

def msgProcessFail : String := "Error al procesar la solicitud con Brevo"

def msgConfigError : String := "Error de configuración del servidor"

def msgMethodNotAllowed : String := "Método no permitido"

def msgRespParseFail : String := "Error al procesar respuesta de Brevo"

def msgCreatedOk : String := "Contacto creado exitosamente"

def msgUpdatedOk : String := "Contacto actualizado exitosamente"

def msgCreatedNoPhone : String := "Contacto creado exitosamente (teléfono no pudo ser asociado)"

def msgBackupCreated : String := "Contacto creado exitosamente (teléfono guardado como respaldo)"

def msgBackupUpdated : String := "Contacto actualizado exitosamente (teléfono guardado como respaldo)"

def msgCommError (status : Nat) : String :=
  "Error de comunicación con Brevo (status: " ++ toString status ++ ")"

def msgInternalError : String := "Error interno del servidor. Por favor intenta más tarde."

/-- Client-visible error bodies of the first variant: `{ok: false, error}`. -/
def outErrOkFalse (status : Nat) (e : String) : HttpOut :=
  ⟨status, some false, none, none, some e, none, none, none, none, none⟩

/-- Client-visible error bodies of the second variant and of
`src/server.js`: `{error}` with no `ok` field. -/
def outErrNoOk (status : Nat) (e : String) : HttpOut :=
  ⟨status, none, none, none, some e, none, none, none, none, none⟩

/-- The validation error messages shared by both serverless variants. -/
def vErrMsgAB : VErr → String
  | .name => "El nombre es requerido y debe tener al menos 2 caracteres"
  | .email => "El email es requerido"
  | .emailFormat => "El formato del email no es válido"
  | .phone => "El teléfono debe tener al menos 7 caracteres"

/-- A 200 answer of the first variant: `{...brevoResult, data}`. -/
def okOutA (br : BrevoResult) (lead : Lead) : HttpOut :=
  ⟨200, some true, some true, some br.message, none, br.code, br.bodyStatus, none, none, some lead⟩

/-- A 200 answer of the first variant with an overriding message. -/
def okOutAMsg (br : BrevoResult) (lead : Lead) (msg : String) : HttpOut :=
  ⟨200, some true, some true, some msg, none, br.code, br.bodyStatus, none, none, some lead⟩

/-- The fall-through 500 of the first variant (lines 399-404), carrying
the original CREATE status, code and message. -/
def finalOutA (r0status : Nat) (errorCode : Option String) (errorMessage : String) : HttpOut :=
  ⟨500, some false, none, none,
    some (jsOrStr errorMessage msgProcessFail),
    errorCode, some r0status, none, none, none⟩

/-- The update-failure 500 of the first variant (lines 291-296). -/
def updFail500A (r1status : Nat) (uCode : Option String) (uMsg : String) : HttpOut :=
  ⟨500, some false, none, none,
    some (jsOrStr uMsg msgProcessFail),
    uCode, some r1status, none, none, none⟩

/-- The classification `isEmailDuplicate` (lines 238-240). -/
def isEmailDupA (code : Option String) (msg : String) : Bool :=
  (code == some "duplicate_parameter") &&
    (jsIncludes (jsToLower msg) "email" || jsIncludes (jsToLower msg) "contact")

/-- The classification `isSMSDuplicate` (lines 242-246). -/
def isSMSDupA (code : Option String) (msg : String) : Bool :=
  (code == some "duplicate_parameter") &&
    (jsIncludes msg "SMS" || jsIncludes msg "phone" ||
     jsIncludes msg "teléfono" || jsIncludes msg "mobile")

/-- The classification `isSMSStillDuplicate` (lines 282-284). -/
def isSMSStillDupA (msg : String) : Bool :=
  jsIncludes msg "SMS" || jsIncludes msg "phone" || jsIncludes msg "teléfono"

/-- Truthiness of the `phoneLocal` variable: set only when a phone was
given, and itself a nonempty string. -/
def phoneLocalTruthy (lead : Lead) : Bool :=
  !(lead.phone == "") && !(phoneLocalOf lead.phone == "")

/-- The `PHONE_BACKUP` stage of the first variant (lines 316-395): POST
the backup payload; on failure, PUT it; on success either way return 200
with the backup note; otherwise fall through to the original error. -/
def backupStageA {σ : Type} (respond : σ → CrmCall → BrevoResponse × σ) (s : σ)
    (lead : Lead) (listId : Int) (r0status : Nat) (errorCode : Option String)
    (errorMessage : String) (calls : List CrmCall) : Run σ :=
  let cb := contactDataBackup lead listId (phoneLocalOf lead.phone)
  let c2 : CrmCall := ⟨.post, .contacts, some cb⟩
  let p2 := respond s c2
  let rr := handleBrevoResponse p2.1
  if rr.ok then
    ⟨okOutAMsg rr lead msgBackupCreated,
      calls ++ [c2], p2.2⟩
  else
    let c3 : CrmCall := ⟨.put, .contactByEmail lead.email, some cb⟩
    let p3 := respond p2.2 c3
    let ur := handleBrevoResponse p3.1
    if ur.ok then
      ⟨okOutAMsg ur lead msgBackupUpdated,
        calls ++ [c2, c3], p3.2⟩
    else ⟨finalOutA r0status errorCode errorMessage, calls ++ [c2, c3], p3.2⟩

/-- The duplicate-conflict remediation of the first variant
(lines 250-312): a PUT with the full payload; if it fails, the handler
re-reads the PUT body (which rejects when the response was JSON, landing
in the catch) and either escalates to the `PHONE_BACKUP` stage or answers
500. -/
def conflictStageA {σ : Type} (respond : σ → CrmCall → BrevoResponse × σ) (s : σ)
    (lead : Lead) (listId : Int) (r0status : Nat) (errorCode : Option String)
    (errorMessage : String) (calls : List CrmCall) : Run σ :=
  let cd := contactDataA lead listId
  let c1 : CrmCall := ⟨.put, .contactByEmail lead.email, some cd⟩
  let p1 := respond s c1
  let ur := handleBrevoResponse p1.1
  if ur.ok then ⟨okOutA ur lead, calls ++ [c1], p1.2⟩
  else
    if p1.1.ctJson then
      if isSMSDupA errorCode errorMessage && phoneLocalTruthy lead then
        backupStageA respond p1.2 lead listId r0status errorCode errorMessage (calls ++ [c1])
      else ⟨outErrOkFalse 500 msgProcessFail, calls ++ [c1], p1.2⟩
    else
      let uRes : Option (Option String × Option String) :=
        if p1.1.parses then some (p1.1.code, p1.1.message) else none
      let uMsg := (uRes.bind Prod.snd).getD ""
      if isSMSStillDupA uMsg && phoneLocalTruthy lead then
        backupStageA respond p1.2 lead listId r0status errorCode errorMessage (calls ++ [c1])
      else ⟨updFail500A p1.1.status (uRes.bind Prod.fst) uMsg, calls ++ [c1], p1.2⟩

/-- The first `src/api/brevo.js` handler after field extraction
(lines 110-404). -/
def handlerAFromLead {σ : Type} (respond : σ → CrmCall → BrevoResponse × σ) (s0 : σ)
    (env : Env) (lead : Lead) : Run σ :=
  match firstVErrAB lead with
  | some e => ⟨outErrOkFalse 400 (vErrMsgAB e), [], s0⟩
  | none =>
    match env.apiKey with
    | none => ⟨outErrOkFalse 500 msgConfigError, [], s0⟩
    | some _ =>
      let listId := listIdOfEnv 2 env
      let cd := contactDataA lead listId
      let c0 : CrmCall := ⟨.post, .contacts, some cd⟩
      let p0 := respond s0 c0
      let br := handleBrevoResponse p0.1
      if br.ok then ⟨okOutA br lead, [c0], p0.2⟩
      else
        let errorMessage := jsOrStr br.message msgUnknown
        let errorCode := br.code
        if p0.1.status = 400 then
          if isEmailDupA errorCode errorMessage || isSMSDupA errorCode errorMessage then
            conflictStageA respond p0.2 lead listId p0.1.status errorCode errorMessage [c0]
          else ⟨finalOutA p0.1.status errorCode errorMessage, [c0], p0.2⟩
        else ⟨finalOutA p0.1.status errorCode errorMessage, [c0], p0.2⟩

/-- The first `src/api/brevo.js` handler, from the raw request. -/
def handlerA {σ : Type} (respond : σ → CrmCall → BrevoResponse × σ) (s0 : σ)
    (env : Env) (method : String) (b : Body) : Run σ :=
  if method ≠ "POST" then ⟨outErrOkFalse 405 msgMethodNotAllowed, [], s0⟩
  else handlerAFromLead respond s0 env (extractAB b)

/-! ## Handler of the second `src/api/brevo.js` variant -/

/-- A 200 answer of the second variant: `{success, message, data}`. -/
def okOutB (msg : String) (lead : Lead) : HttpOut :=
  ⟨200, none, some true, some msg, none, none, none, none, none, some lead⟩

/-- Duplicate classification of the second variant (line 561). -/
def isDupB (code : Option String) (msg : String) : Bool :=
  (code == some "duplicate_parameter") || jsIncludes (jsToLower msg) "duplicate"

/-- Phone-conflict classification of the second variant (line 595). -/
def isPhoneConflictB (msg : String) : Bool :=
  jsIncludes msg "SMS" || jsIncludes msg "phone" || jsIncludes msg "teléfono"

/-- Stage "Caso 2" of the second variant (lines 594-644): when the error message
mentions the phone, re-POST the payload without the phone attribute; a 2xx
answers 200 with the note, anything else falls to the original-error
500. -/
def handlerBPhoneStage {σ : Type} (respond : σ → CrmCall → BrevoResponse × σ) (s : σ)
    (lead : Lead) (listId : Int) (errorMessage : String) (calls : List CrmCall) : Run σ :=
  if isPhoneConflictB errorMessage then
    let cnp := contactDataBNoPhone lead listId
    let c2 : CrmCall := ⟨.post, .contacts, some cnp⟩
    let p2 := respond s c2
    if 200 ≤ p2.1.status ∧ p2.1.status ≤ 299 then
      ⟨okOutB msgCreatedNoPhone lead, calls ++ [c2], p2.2⟩
    else ⟨outErrNoOk 500 (jsOrStr errorMessage msgProcessFail), calls ++ [c2], p2.2⟩
  else ⟨outErrNoOk 500 (jsOrStr errorMessage msgProcessFail), calls, s⟩

/-- The second `src/api/brevo.js` handler after field extraction
(lines 443-653).  Any non-JSON response is a 500; a JSON parse failure is
a 500; a 2xx is success.  On a 400 classified as duplicate, a PUT is
tried first (its success requires its own body to parse, since
`updateResponse.json()` would otherwise throw into the catch); then the
phone-conflict stage runs. -/
def handlerBFromLead {σ : Type} (respond : σ → CrmCall → BrevoResponse × σ) (s0 : σ)
    (env : Env) (lead : Lead) : Run σ :=
  match firstVErrAB lead with
  | some e => ⟨outErrNoOk 400 (vErrMsgAB e), [], s0⟩
  | none =>
    match env.apiKey with
    | none => ⟨outErrNoOk 500 msgConfigError, [], s0⟩
    | some _ =>
      let listId := listIdOfEnv 2 env
      let cd := contactDataB lead listId
      let c0 : CrmCall := ⟨.post, .contacts, some cd⟩
      let p0 := respond s0 c0
      let r0 := p0.1
      if !r0.ctJson then
        ⟨outErrNoOk 500 (msgCommError r0.status), [c0], p0.2⟩
      else if !r0.parses then
        ⟨outErrNoOk 500 msgRespParseFail, [c0], p0.2⟩
      else if 200 ≤ r0.status ∧ r0.status ≤ 299 then
        ⟨okOutB msgCreatedOk lead, [c0], p0.2⟩
      else
        let errorMessage := jsOptOr r0.message msgUnknown
        if r0.status = 400 then
          if isDupB r0.code errorMessage then
            let c1 : CrmCall := ⟨.put, .contactByEmail lead.email, some cd⟩
            let p1 := respond p0.2 c1
            if (200 ≤ p1.1.status ∧ p1.1.status ≤ 299) ∧ p1.1.parses then
              ⟨okOutB msgUpdatedOk lead, [c0, c1], p1.2⟩
            else handlerBPhoneStage respond p1.2 lead listId errorMessage [c0, c1]
          else handlerBPhoneStage respond p0.2 lead listId errorMessage [c0]
        else ⟨outErrNoOk 500 (jsOrStr errorMessage msgProcessFail), [c0], p0.2⟩

/-- The second `src/api/brevo.js` handler, from the raw request. -/
def handlerB {σ : Type} (respond : σ → CrmCall → BrevoResponse × σ) (s0 : σ)
    (env : Env) (method : String) (b : Body) : Run σ :=
  if method ≠ "POST" then ⟨outErrNoOk 405 msgMethodNotAllowed, [], s0⟩
  else handlerBFromLead respond s0 env (extractAB b)

/-! ## The `src/server.js` route -/

/-- The `src/server.js` validation error messages. -/
def sVErrMsg : SVErr → String
  | .name => "El nombre es requerido y debe tener al menos 2 caracteres"
  | .email => "El email es requerido"
  | .emailFormat => "El formato del email no es válido"
  | .message => "El mensaje es requerido y debe tener al menos 10 caracteres"

/-- The error-message selection of `src/server.js` lines 209-226. -/
def chooseServerErrMsg (r : BrevoResponse) : String :=
  if r.status = 401 then "API Key inválida o expirada"
  else if r.status = 404 then "Recurso no encontrado (verifica el ID de lista)"
  else if r.status = 400 then
    match jsOptTruthy r.message with
    | some m => m
    | none =>
      if r.code == some "invalid_parameter" then
        "Algunos datos no son válidos (verifica el formato del teléfono)"
      else "Datos inválidos"
  else
    match jsOptTruthy r.message with
    | some m => m
    | none => "Error al procesar la solicitud"

/-- The check `brevoResult.message?.includes('SMS is already associated with another
Contact')` (line 161). -/
def isSMSAssocS (msg : Option String) : Bool :=
  match msg with
  | some m => jsIncludes m "SMS is already associated with another Contact"
  | none => false

/-- Duplicate classification of `src/server.js` line 201. -/
def isDupS (r : BrevoResponse) : Bool :=
  (r.code == some "duplicate_parameter") ||
    (match r.message with
     | some m => jsIncludes (jsToLower m) "duplicate"
     | none => false)

/-- The terminal success path of `src/server.js` (lines 236-293): send the
notification e-mail (its outcome is swallowed) and answer 200 with
`id: brevoResult.id || 'contacto actualizado'`. -/
def serverNotifyAnd200 {σ : Type} (respond : σ → CrmCall → BrevoResponse × σ) (s : σ)
    (r0 : BrevoResponse) (calls : List CrmCall) : Run σ :=
  let ce : CrmCall := ⟨.post, .smtpEmail, none⟩
  let pe := respond s ce
  ⟨⟨200, none, some true, some "Mensaje enviado correctamente", none, none, none,
      some (jsOptOr r0.id "contacto actualizado"), none, none⟩,
    calls ++ [ce], pe.2⟩

/-- The `src/server.js` route after field extraction (lines 46-304).  A
duplicate-e-mail 400 is treated as success with no further contact call;
an "SMS already associated" 400 triggers a phone-less re-POST whose
outcome does not affect the 200 (except that a 2xx retry whose body fails
to parse throws into the outer catch). -/
def serverCore {σ : Type} (respond : σ → CrmCall → BrevoResponse × σ) (s0 : σ)
    (env : Env) (lead : Lead) : Run σ :=
  match firstVErrServer lead with
  | some e => ⟨outErrNoOk 400 (sVErrMsg e), [], s0⟩
  | none =>
    match env.apiKey with
    | none => ⟨outErrNoOk 500 msgConfigError, [], s0⟩
    | some _ =>
      let listId := listIdOfEnv 4 env
      let cd := contactDataS lead listId
      let c0 : CrmCall := ⟨.post, .contacts, some cd⟩
      let p0 := respond s0 c0
      let r0 := p0.1
      if !r0.ctJson then
        ⟨⟨500, none, none, none, some (msgCommError r0.status),
            none, none, none, some (jsTake 200 r0.body), none⟩, [c0], p0.2⟩
      else if !r0.parses then
        ⟨outErrNoOk 500 msgRespParseFail, [c0], p0.2⟩
      else if 200 ≤ r0.status ∧ r0.status ≤ 299 then
        serverNotifyAnd200 respond p0.2 r0 [c0]
      else if r0.status = 400 ∧ isSMSAssocS r0.message then
        let cnp := contactDataSNoPhone lead listId
        let c1 : CrmCall := ⟨.post, .contacts, some cnp⟩
        let p1 := respond p0.2 c1
        if 200 ≤ p1.1.status ∧ p1.1.status ≤ 299 then
          if p1.1.parses then serverNotifyAnd200 respond p1.2 r0 [c0, c1]
          else ⟨outErrNoOk 500 msgInternalError, [c0, c1], p1.2⟩
        else serverNotifyAnd200 respond p1.2 r0 [c0, c1]
      else if r0.status = 400 ∧ isDupS r0 then
        serverNotifyAnd200 respond p0.2 r0 [c0]
      else ⟨outErrNoOk 500 (chooseServerErrMsg r0), [c0], p0.2⟩

/-- The `src/server.js` route, from the raw request body. -/
def serverRoute {σ : Type} (respond : σ → CrmCall → BrevoResponse × σ) (s0 : σ)
    (env : Env) (b : Body) : Run σ :=
  serverCore respond s0 env (extractServer b)

/-! ## CRM environment model (for the idempotence claim) -/

/-- A stored CRM contact. -/
structure Contact where
  email : String
  attrs : List (String × AttrVal)
  lists : List Int
deriving DecidableEq

/-- The unique phone attribute of a payload/contact attribute list. -/
def smsAttrOf (attrs : List (String × AttrVal)) : Option AttrVal :=
  (attrs.find? (fun kv => kv.1 == "SMS")).map Prod.snd

/-- Modelled from the spec: the CRM (Brevo) is an external collaborator,
not code of this repository.  §4.3's design rationale specifies that it
enforces uniqueness on both the e-mail and the phone attribute
independently, answering a 400 `duplicate_parameter` conflict (with a
message naming the conflicting field) when a POST reuses an existing
e-mail or a PUT/POST attaches a phone already tied to a **different**
contact; a successful POST creates the contact (201 with a JSON body) and
a successful PUT applies the new attributes (204 No Content, §8). -/
def crmRespond (st : List Contact) (c : CrmCall) : BrevoResponse × List Contact :=
  match c.payload, c.method, c.endpoint with
  | some p, .post, .contacts =>
    if st.any (fun ct => ct.email == p.email) then
      (⟨400, true, "json-dup-email", true, some "duplicate_parameter",
        some "Contact already exist", none⟩, st)
    else if (match smsAttrOf p.attributes with
             | some v => st.any (fun ct => smsAttrOf ct.attrs == some v)
             | none => false) then
      (⟨400, true, "json-dup-sms", true, some "duplicate_parameter",
        some "SMS is already associated with another Contact", none⟩, st)
    else
      (⟨201, true, "json-created", true, none, none, some "1"⟩,
        st ++ [⟨p.email, p.attributes, p.listIds⟩])
  | some p, .put, .contactByEmail e =>
    if st.any (fun ct => ct.email == e) then
      if (match smsAttrOf p.attributes with
          | some v => st.any (fun ct => !(ct.email == e) && smsAttrOf ct.attrs == some v)
          | none => false) then
        (⟨400, true, "json-dup-sms", true, some "duplicate_parameter",
          some "SMS is already associated with another Contact", none⟩, st)
      else
        (⟨204, false, "", false, none, none, none⟩,
          st.map (fun ct => if ct.email == e then ⟨e, p.attributes, p.listIds⟩ else ct))
    else
      (⟨404, true, "json-not-found", true, some "document_not_found",
        some "Contact does not exist", none⟩, st)
  | _, _, _ =>
    (⟨201, true, "json-accepted", true, none, none, none⟩, st)

/-! ## Spec-side reference definitions -/

/-- The spec's words for C8: the whitespace-delimited tokens of a name
(empty tokens dropped, any whitespace a delimiter).  Used only to compare
the spec's description against the source's `split(' ')`. -/
def specWhitespaceTokens (s : String) : List String :=
  ((s.data.splitOnP (fun c => jsWs c)).map String.mk).filter (fun t => t ≠ "")

/-- The spec's last-name rule for C8: the whitespace tokens after the
first, joined by a single space. -/
def specLastJoined (s : String) : String :=
  joinWith " " (specWhitespaceTokens s).tail

/-! ## Concrete fixtures used by witnesses and counterexamples -/

/-- A fallback response for oracles built from a finite list. -/
def defaultResp : BrevoResponse := ⟨500, false, "", false, none, none, none⟩

/-- A pure response oracle: the `n`-th outbound call receives the `n`-th
response of the list. -/
def oracleOf (l : List BrevoResponse) : Nat → CrmCall → BrevoResponse × Nat :=
  fun n _ => (l.getD n defaultResp, n + 1)

/-- A valid sanitized lead. -/
def leadFix : Lead := ⟨"Jane Doe", "jane@ex.com", "1234567890", "", "Hola, quiero informes"⟩

/-- An environment with the API key configured. -/
def envFix : Env := ⟨some "key", none⟩

/-- A body carrying only the English field names. -/
def bodyOnlyEn (n c e p m : String) : Body :=
  ⟨.str n, .missing, .str c, .missing, .str e, .missing, .str p, .missing, .str m, .missing⟩

/-- A body carrying only the Spanish alias field names. -/
def bodyOnlyEs (n c e p m : String) : Body :=
  ⟨.missing, .str n, .missing, .str c, .missing, .str e, .missing, .str p, .missing, .str m⟩

/-- The CRM's duplicate-e-mail conflict response. -/
def respDupEmail : BrevoResponse :=
  ⟨400, true, "json-dup-email", true, some "duplicate_parameter", some "Contact already exist", none⟩

/-- A 201 created response with a JSON body. -/
def respCreated : BrevoResponse := ⟨201, true, "json-created", true, none, none, some "7"⟩

/-- A 204 No Content response (no JSON content type, empty body). -/
def respNoContent : BrevoResponse := ⟨204, false, "", false, none, none, none⟩

/-- A 200 response with a parsing JSON body. -/
def respOkJson : BrevoResponse := ⟨200, true, "json-ok", true, none, none, none⟩

/-- The CRM's phone-conflict response. -/
def respSMSDup : BrevoResponse :=
  ⟨400, true, "json-dup-sms", true, some "duplicate_parameter",
    some "SMS is already associated with another Contact", none⟩

/-- A phone-conflict response without the `duplicate_parameter` code. -/
def respSMSConflictNoCode : BrevoResponse :=
  ⟨400, true, "json-sms-conflict", true, none,
    some "SMS is already associated with another Contact", none⟩

/-! ## Helper lemmas about `splitOnCharList` -/

theorem splitOnCharList_ne_nil (c : Char) (l : List Char) : splitOnCharList c l ≠ [] := by
  cases l with
  | nil => simp [splitOnCharList]
  | cons x xs =>
    simp only [splitOnCharList]
    by_cases h : x = c
    · simp [h]
    · rcases hs : splitOnCharList c xs with _ | ⟨hh, t⟩ <;> simp [h, hs]

theorem joinWithChar_cons_cons (c : Char) (x : Char) (h : List Char) (t : List (List Char)) :
    joinWithChar c ((x :: h) :: t) = x :: joinWithChar c (h :: t) := by
  cases t <;> simp [joinWithChar]

theorem joinWithChar_splitOnCharList (c : Char) (l : List Char) :
    joinWithChar c (splitOnCharList c l) = l := by
  induction l with
  | nil => simp [splitOnCharList, joinWithChar]
  | cons x xs ih =>
    simp only [splitOnCharList]
    by_cases h : x = c
    · subst h
      simp only [if_pos rfl]
      rcases hs : splitOnCharList x xs with _ | ⟨hh, t⟩
      · exact absurd hs (splitOnCharList_ne_nil x xs)
      · rw [hs] at ih
        simp [joinWithChar, ih]
    · simp only [if_neg h]
      rcases hs : splitOnCharList c xs with _ | ⟨hh, t⟩
      · exact absurd hs (splitOnCharList_ne_nil c xs)
      · rw [hs] at ih
        rw [joinWithChar_cons_cons, ih]

theorem splitOnCharList_of_not_mem (c : Char) (l : List Char) (h : c ∉ l) :
    splitOnCharList c l = [l] := by
  induction l with
  | nil => simp [splitOnCharList]
  | cons x xs ih =>
    simp only [List.mem_cons, not_or] at h
    have hx : ¬x = c := fun he => h.1 he.symm
    simp only [splitOnCharList, if_neg hx]
    rw [ih h.2]

theorem splitOnCharList_head_not_sep (c : Char) (l : List Char) :
    ∀ x ∈ (splitOnCharList c l).headD [], x ≠ c := by
  induction l with
  | nil => simp [splitOnCharList]
  | cons x xs ih =>
    simp only [splitOnCharList]
    by_cases h : x = c
    · simp [h]
    · rcases hs : splitOnCharList c xs with _ | ⟨hh, t⟩
      · simp [h, hs]
      · rw [hs] at ih
        simp only [if_neg h, List.headD_cons]
        intro y hy
        rcases List.mem_cons.mp hy with rfl | hy'
        · exact h
        · exact ih y (by simpa using hy')

theorem splitOnCharList_tail_ne_nil (c : Char) (l : List Char) (h : c ∈ l) :
    (splitOnCharList c l).tail ≠ [] := by
  induction l with
  | nil => simp at h
  | cons x xs ih =>
    simp only [splitOnCharList]
    by_cases hx : x = c
    · simp only [if_pos hx, List.tail_cons]
      exact splitOnCharList_ne_nil c xs
    · have hmem : c ∈ xs := by
        rcases List.mem_cons.mp h with rfl | h' <;> [exact absurd rfl hx; exact h']
      rcases hs : splitOnCharList c xs with _ | ⟨hh, t⟩
      · exact absurd hs (splitOnCharList_ne_nil c xs)
      · rw [hs] at ih
        simp only [if_neg hx, List.tail_cons]
        have := ih hmem
        simp only [List.tail_cons] at this
        exact this

theorem mk_append (a b : List Char) : String.mk a ++ String.mk b = String.mk (a ++ b) := rfl

theorem joinWith_map_mk (c : Char) (t : List (List Char)) :
    joinWith (String.mk [c]) (t.map String.mk) = String.mk (joinWithChar c t) := by
  induction t with
  | nil => rfl
  | cons x xs ih =>
    cases xs with
    | nil => rfl
    | cons y ys =>
      simp only [List.map_cons, joinWith, joinWithChar]
      simp only [List.map_cons] at ih
      rw [ih, mk_append, mk_append]
      simp

/-! ## C3: response classification -/

/-- C3 counterexample: the claim says every 2xx CRM response is classified
Success.  `handleBrevoResponse` classifies a 202 as an error, classifies a
200 with a JSON content type and an empty body as an error, and on the 202
the handler answers the client 500, not 200. -/
theorem c3_counterexample :
    (handleBrevoResponse ⟨202, false, "", false, none, none, none⟩).ok = false ∧
    (handleBrevoResponse ⟨200, true, "", false, none, none, none⟩).ok = false ∧
    (handlerAFromLead (oracleOf [⟨202, false, "", false, none, none, none⟩]) 0
      envFix leadFix).out.status = 500 := by
  refine ⟨by decide, by decide, ?_⟩
  decide

/-- C3 (amended): a CRM response with status 204, or with status 200/201
except when it has a JSON content type together with an empty body, is
classified Success by `handleBrevoResponse`; when the CREATE receives such
a response, the first `src/api/brevo.js` handler answers the client
HTTP 200. -/
theorem c3_success_classification (r : BrevoResponse)
    (hr : r.status = 204 ∨ ((r.status = 200 ∨ r.status = 201) ∧ (r.ctJson = true → r.body ≠ ""))) :
    (handleBrevoResponse r).ok = true ∧
    (∀ (σ : Type) (respond : σ → CrmCall → BrevoResponse × σ) (s0 : σ) (env : Env)
        (k : String) (lead : Lead),
      env.apiKey = some k → firstVErrAB lead = none →
      (respond s0 ⟨.post, .contacts, some (contactDataA lead (listIdOfEnv 2 env))⟩).1 = r →
      (handlerAFromLead respond s0 env lead).out.status = 200) := by
  have hok : (handleBrevoResponse r).ok = true := by
    unfold handleBrevoResponse
    rcases hr with h204 | ⟨h2xx, hbody⟩
    · simp [h204]
    · have hne : r.status ≠ 204 := by rcases h2xx with h | h <;> omega
      rcases hct : r.ctJson with _ | _
      · simp [hne, h2xx, hct]
      · have hb : r.body ≠ "" := hbody hct
        by_cases hp : r.parses = true <;> simp [hne, h2xx, hct, hb, hp]
  refine ⟨hok, ?_⟩
  intro σ respond s0 env k lead henv hval hresp
  unfold handlerAFromLead
  rw [hval, henv]
  simp only [hresp, hok, if_pos]
  rfl

/-- C3 witness: the amended theorem applied to a 204 No Content response,
with a concrete lead, environment and oracle. -/
theorem c3_success_classification_witness :
    (handleBrevoResponse respNoContent).ok = true ∧
    (handlerAFromLead (oracleOf [respNoContent]) 0 envFix leadFix).out.status = 200 := by
  have h := c3_success_classification respNoContent (Or.inl rfl)
  exact ⟨h.1, h.2 Nat (oracleOf [respNoContent]) 0 envFix "key" leadFix rfl (by decide) rfl⟩

/-! ## C6: missing API key -/

/-- C6 counterexample: the claim says a missing `BREVO_API_KEY` yields
HTTP 500 regardless of input validity; but validation runs first, so an
invalid name with the key unset is answered 400, not 500. -/
theorem c6_counterexample :
    (handlerAFromLead (oracleOf []) 0 ⟨none, none⟩ ⟨"A", "a@b.co", "", "", ""⟩).out.status = 400 := by
  decide

/-- C6 (amended): with `BREVO_API_KEY` unset, no CRM call is ever made,
and every request that passes field validation is answered HTTP 500 (a
request failing validation is answered with its 400 validation error
first).  This holds for all three handlers. -/
theorem c6_no_key (σ : Type) (respond : σ → CrmCall → BrevoResponse × σ) (s0 : σ)
    (env : Env) (lead : Lead) (henv : env.apiKey = none) :
    ((handlerAFromLead respond s0 env lead).calls = [] ∧
      (firstVErrAB lead = none → (handlerAFromLead respond s0 env lead).out.status = 500)) ∧
    ((handlerBFromLead respond s0 env lead).calls = [] ∧
      (firstVErrAB lead = none → (handlerBFromLead respond s0 env lead).out.status = 500)) ∧
    ((serverCore respond s0 env lead).calls = [] ∧
      (firstVErrServer lead = none → (serverCore respond s0 env lead).out.status = 500)) := by
  refine ⟨⟨?_, ?_⟩, ⟨?_, ?_⟩, ⟨?_, ?_⟩⟩ <;>
    first
    | · unfold handlerAFromLead
        cases hv : firstVErrAB lead <;> simp [hv, henv, outErrOkFalse]
    | · unfold handlerBFromLead
        cases hv : firstVErrAB lead <;> simp [hv, henv, outErrNoOk]
    | · unfold serverCore
        cases hv : firstVErrServer lead <;> simp [hv, henv, outErrNoOk]

/-- C6 witness: the amended theorem at a concrete valid lead and an
environment without the API key. -/
theorem c6_no_key_witness :
    (handlerAFromLead (oracleOf []) 0 ⟨none, none⟩ leadFix).calls = [] ∧
    (firstVErrAB leadFix = none →
      (handlerAFromLead (oracleOf []) 0 ⟨none, none⟩ leadFix).out.status = 500) :=
  (c6_no_key Nat (oracleOf []) 0 ⟨none, none⟩ leadFix rfl).1

/-! ## C7: phone validation -/

/-- C7 counterexample: the claim says validation fails exactly when the
phone is shorter than 7 characters after stripping separators.  The phone
`"1-2-3-4"` strips to `"1234"` (4 characters), yet validation passes it,
and with a working CRM the handler answers 200. -/
theorem c7_counterexample :
    stripSeparators "1-2-3-4" = "1234" ∧
    firstVErrAB ⟨"Jane Doe", "jane@ex.com", "1-2-3-4", "", ""⟩ = none ∧
    (handlerAFromLead (oracleOf [respCreated]) 0 envFix
      ⟨"Jane Doe", "jane@ex.com", "1-2-3-4", "", ""⟩).out.status = 200 := by
  refine ⟨by decide, by decide, ?_⟩
  decide

/-- C7 (amended): once the name and e-mail rules pass, validation fails
with the phone error exactly when the submitted phone is non-empty and its
raw trimmed length — separators included, nothing stripped — is below 7. -/
theorem c7_phone_validation (lead : Lead)
    (hname : ¬(lead.name = "" ∨ lead.name.length < 2))
    (hemail : lead.email ≠ "") (hfmt : emailRegexTest lead.email = true) :
    firstVErrAB lead = some .phone ↔ (lead.phone ≠ "" ∧ lead.phone.length < 7) := by
  unfold firstVErrAB
  rw [if_neg hname, if_neg hemail]
  rw [hfmt]
  by_cases hp : lead.phone ≠ "" ∧ lead.phone.length < 7 <;> simp [hp]

/-- C7 witness: the amended theorem at the concrete phone `"123"`. -/
theorem c7_phone_validation_witness :
    firstVErrAB ⟨"Jane Doe", "jane@ex.com", "123", "", ""⟩ = some .phone ↔
      (("123" : String) ≠ "" ∧ ("123" : String).length < 7) :=
  c7_phone_validation ⟨"Jane Doe", "jane@ex.com", "123", "", ""⟩
    (by decide) (by decide) (by decide)

/-! ## C4: bounded sequential call traces -/

/-- C4: for every lead, environment and sequence of CRM responses, each
handler issues a bounded trace of outbound calls, one at a time: the first
`src/api/brevo.js` variant at most 4, the second at most 3, and
`src/server.js` at most 3 of which at most 2 are contact calls (the third
being the notification e-mail); no protocol state is ever re-entered. -/
theorem backupStageA_calls_len (σ : Type) (respond : σ → CrmCall → BrevoResponse × σ)
    (s : σ) (lead : Lead) (listId : Int) (r0s : Nat) (ec : Option String)
    (em : String) (calls : List CrmCall) :
    (backupStageA respond s lead listId r0s ec em calls).calls.length ≤ calls.length + 2 := by
  unfold backupStageA
  dsimp only
  repeat' split
  all_goals simp [List.length_append]

theorem conflictStageA_calls_len (σ : Type) (respond : σ → CrmCall → BrevoResponse × σ)
    (s : σ) (lead : Lead) (listId : Int) (r0s : Nat) (ec : Option String)
    (em : String) (calls : List CrmCall) :
    (conflictStageA respond s lead listId r0s ec em calls).calls.length ≤ calls.length + 3 := by
  unfold conflictStageA
  dsimp only
  repeat' split
  all_goals
    first
    | (refine le_trans (backupStageA_calls_len _ _ _ _ _ _ _ _ _) ?_
       simp [List.length_append]
       try omega)
    | (simp [List.length_append]; try omega)

theorem handlerBPhoneStage_calls_len (σ : Type) (respond : σ → CrmCall → BrevoResponse × σ)
    (s : σ) (lead : Lead) (listId : Int) (em : String) (calls : List CrmCall) :
    (handlerBPhoneStage respond s lead listId em calls).calls.length ≤ calls.length + 1 := by
  unfold handlerBPhoneStage
  dsimp only
  repeat' split
  all_goals simp [List.length_append]

theorem serverNotifyAnd200_calls (σ : Type) (respond : σ → CrmCall → BrevoResponse × σ)
    (s : σ) (r0 : BrevoResponse) (calls : List CrmCall) :
    (serverNotifyAnd200 respond s r0 calls).calls =
      calls ++ [⟨.post, .smtpEmail, none⟩] := rfl

theorem c4_bounded_calls (σ : Type) (respond : σ → CrmCall → BrevoResponse × σ)
    (s0 : σ) (env : Env) (lead : Lead) :
    (handlerAFromLead respond s0 env lead).calls.length ≤ 4 ∧
    (handlerBFromLead respond s0 env lead).calls.length ≤ 3 ∧
    (serverCore respond s0 env lead).calls.length ≤ 3 ∧
    (serverCore respond s0 env lead).calls.countP
      (fun c => !(c.endpoint == Endpoint.smtpEmail)) ≤ 2 := by
  refine ⟨?_, ?_, ?_, ?_⟩
  · unfold handlerAFromLead
    repeat' split
    all_goals dsimp only
    repeat' split
    all_goals
      first
      | (refine le_trans (conflictStageA_calls_len _ _ _ _ _ _ _ _ _) ?_
         simp)
      | simp
  · unfold handlerBFromLead
    repeat' split
    all_goals dsimp only
    repeat' split
    all_goals
      first
      | (refine le_trans (handlerBPhoneStage_calls_len _ _ _ _ _ _ _) ?_
         simp)
      | simp
  · unfold serverCore
    repeat' split
    all_goals dsimp only
    repeat' split
    all_goals simp [serverNotifyAnd200_calls, List.length_append]
  · unfold serverCore
    repeat' split
    all_goals dsimp only
    repeat' split
    all_goals simp [serverNotifyAnd200_calls, List.countP_append, List.countP_cons]

/-! ## C9: bilingual field aliases -/

/-- C9 counterexample: the claim says each field is read identically under
its Spanish alias in every handler; the `src/api/brevo.js` handler reads
only the English names, so a request carrying only Spanish fields fails
name validation with 400 while the same data under English names is
processed to 200. -/
theorem c9_counterexample :
    (handlerA (oracleOf [respCreated]) 0 envFix "POST"
      (bodyOnlyEs "Jane Doe" "" "jane@ex.com" "1234567890" "Hola, quiero informes")).out.status = 400 ∧
    (handlerA (oracleOf [respCreated]) 0 envFix "POST"
      (bodyOnlyEn "Jane Doe" "" "jane@ex.com" "1234567890" "Hola, quiero informes")).out.status = 200 := by
  constructor <;> decide

theorem fieldOrAlias_comm_missing (v : String) :
    fieldOrAlias .missing (.str v) = fieldOrAlias (.str v) .missing := by
  by_cases h : v = "" <;> simp [fieldOrAlias, fieldOrEmpty, truthyVal, h]

/-- C9 (amended): the `src/server.js` route reads each field from the
English key with the Spanish alias as fallback, so a value supplied only
under its Spanish alias extracts — and routes — identically to the same
value supplied only under the English key; the `src/api/brevo.js` handler,
by contrast, ignores the Spanish aliases entirely. -/
theorem c9_server_aliases (n c e p m : String) :
    (extractServer (bodyOnlyEs n c e p m) = extractServer (bodyOnlyEn n c e p m)) ∧
    (∀ (σ : Type) (respond : σ → CrmCall → BrevoResponse × σ) (s0 : σ) (env : Env),
      serverRoute respond s0 env (bodyOnlyEs n c e p m) =
        serverRoute respond s0 env (bodyOnlyEn n c e p m)) ∧
    extractAB (bodyOnlyEs n c e p m) = extractAB (bodyOnlyEs "" "" "" "" "") := by
  have hx : extractServer (bodyOnlyEs n c e p m) = extractServer (bodyOnlyEn n c e p m) := by
    simp only [extractServer, bodyOnlyEs, bodyOnlyEn, fieldOrAlias_comm_missing]
  refine ⟨hx, ?_, rfl⟩
  intro σ respond s0 env
  unfold serverRoute
  rw [hx]

/-! ## C10: absent and null fields -/

/-- The five lead fields of the inbound body (English keys). -/
inductive LeadField where
  | name
  | email
  | phone
  | company
  | message
deriving DecidableEq

/-- Replace one English-keyed lead field of a body. -/
def setFieldEn (b : Body) (f : LeadField) (v : JField) : Body :=
  match f with
  | .name => ⟨v, b.nombre, b.company, b.empresa, b.email, b.emailEs, b.phone, b.telefono, b.message, b.mensaje⟩
  | .email => ⟨b.name, b.nombre, b.company, b.empresa, v, b.emailEs, b.phone, b.telefono, b.message, b.mensaje⟩
  | .phone => ⟨b.name, b.nombre, b.company, b.empresa, b.email, b.emailEs, v, b.telefono, b.message, b.mensaje⟩
  | .company => ⟨b.name, b.nombre, v, b.empresa, b.email, b.emailEs, b.phone, b.telefono, b.message, b.mensaje⟩
  | .message => ⟨b.name, b.nombre, b.company, b.empresa, b.email, b.emailEs, b.phone, b.telefono, v, b.mensaje⟩

theorem extractAB_falsy_field (f : LeadField) (b : Body) :
    extractAB (setFieldEn b f .missing) = extractAB (setFieldEn b f (.str "")) ∧
    extractAB (setFieldEn b f .null) = extractAB (setFieldEn b f (.str "")) := by
  cases f <;> exact ⟨rfl, rfl⟩

theorem extractServer_falsy_field (f : LeadField) (b : Body) :
    extractServer (setFieldEn b f .missing) = extractServer (setFieldEn b f (.str "")) ∧
    extractServer (setFieldEn b f .null) = extractServer (setFieldEn b f (.str "")) := by
  cases f <;> exact ⟨rfl, rfl⟩

/-- C10: a lead field that is absent or `null` behaves exactly like the
same field supplied as the empty string: every handler produces an
identical response (and an identical call trace) in all three cases — in
particular nothing throws on the missing field and an absent name yields
the same 400 as an empty name. -/
theorem c10_absent_null_as_empty (f : LeadField) (b : Body) (σ : Type)
    (respond : σ → CrmCall → BrevoResponse × σ) (s0 : σ) (env : Env) (method : String) :
    (handlerA respond s0 env method (setFieldEn b f .missing) =
      handlerA respond s0 env method (setFieldEn b f (.str ""))) ∧
    (handlerA respond s0 env method (setFieldEn b f .null) =
      handlerA respond s0 env method (setFieldEn b f (.str ""))) ∧
    (handlerB respond s0 env method (setFieldEn b f .missing) =
      handlerB respond s0 env method (setFieldEn b f (.str ""))) ∧
    (handlerB respond s0 env method (setFieldEn b f .null) =
      handlerB respond s0 env method (setFieldEn b f (.str ""))) ∧
    (serverRoute respond s0 env (setFieldEn b f .missing) =
      serverRoute respond s0 env (setFieldEn b f (.str ""))) ∧
    (serverRoute respond s0 env (setFieldEn b f .null) =
      serverRoute respond s0 env (setFieldEn b f (.str ""))) := by
  obtain ⟨hab1, hab2⟩ := extractAB_falsy_field f b
  obtain ⟨hs1, hs2⟩ := extractServer_falsy_field f b
  refine ⟨?_, ?_, ?_, ?_, ?_, ?_⟩
  · unfold handlerA
    split
    · rfl
    · rw [hab1]
  · unfold handlerA
    split
    · rfl
    · rw [hab2]
  · unfold handlerB
    split
    · rfl
    · rw [hab1]
  · unfold handlerB
    split
    · rfl
    · rw [hab2]
  · unfold serverRoute
    rw [hs1]
  · unfold serverRoute
    rw [hs2]

/-! ## C1: duplicate-e-mail remediation -/

/-- C1 counterexample: the claim says every duplicate-e-mail 400 leads to
exactly one full-payload PUT.  The `src/server.js` route instead treats
the duplicate-e-mail 400 as success: it answers 200 and performs no PUT at
all (trace: the CREATE POST and the notification e-mail only). -/
theorem c1_counterexample :
    respDupEmail.status = 400 ∧ isDupS respDupEmail = true ∧
    (serverRoute (oracleOf [respDupEmail, respOkJson]) 0 envFix
      (bodyOnlyEn "Jane Doe" "" "jane@ex.com" "1234567890" "Hola, quiero informes")).out.status = 200 ∧
    (serverRoute (oracleOf [respDupEmail, respOkJson]) 0 envFix
      (bodyOnlyEn "Jane Doe" "" "jane@ex.com" "1234567890" "Hola, quiero informes")).calls.countP
      (fun c => c.method == HttpMethod.put) = 0 := by
  refine ⟨rfl, by decide, ?_, ?_⟩ <;> decide

theorem hbr_400_not_ok (r : BrevoResponse) (h : r.status = 400) :
    (handleBrevoResponse r).ok = false := by
  unfold handleBrevoResponse
  rw [h]
  norm_num
  split_ifs <;> rfl

theorem backup_ne_full (lead : Lead) (listId : Int) (pl : String) (hph : lead.phone ≠ "") :
    contactDataBackup lead listId pl ≠ contactDataA lead listId := by
  intro h
  have hlen := congrArg (fun p => p.attributes.length) h
  by_cases hc : lead.company = "" <;>
    simp [contactDataBackup, contactDataA, hc, hph] at hlen

theorem conflictStageA_put_count (σ : Type) (respond : σ → CrmCall → BrevoResponse × σ)
    (s : σ) (lead : Lead) (listId : Int) (r0s : Nat) (ec : Option String)
    (em : String) (calls : List CrmCall) :
    (conflictStageA respond s lead listId r0s ec em calls).calls.countP
      (fun c => c.method == HttpMethod.put &&
        c.payload == some (contactDataA lead listId)) =
    calls.countP (fun c => c.method == HttpMethod.put &&
        c.payload == some (contactDataA lead listId)) + 1 := by
  unfold conflictStageA backupStageA
  dsimp only
  repeat' split
  all_goals simp [List.countP_append, List.countP_cons]
  all_goals
    rename_i hsms _ _
    have hph : lead.phone ≠ "" := by
      have h2 := ((Bool.and_eq_true _ _).mp hsms).2
      simp only [phoneLocalTruthy, Bool.and_eq_true, Bool.not_eq_true', beq_eq_false_iff_ne] at h2
      exact h2.1
    simp [backup_ne_full lead listId (phoneLocalOf lead.phone) hph]

theorem conflictStageA_put_ok (σ : Type) (respond : σ → CrmCall → BrevoResponse × σ)
    (s : σ) (lead : Lead) (listId : Int) (r0s : Nat) (ec : Option String)
    (em : String) (calls : List CrmCall)
    (hok : (handleBrevoResponse
      (respond s ⟨.put, .contactByEmail lead.email, some (contactDataA lead listId)⟩).1).ok = true) :
    conflictStageA respond s lead listId r0s ec em calls =
      ⟨okOutA (handleBrevoResponse
          (respond s ⟨.put, .contactByEmail lead.email, some (contactDataA lead listId)⟩).1) lead,
        calls ++ [⟨.put, .contactByEmail lead.email, some (contactDataA lead listId)⟩],
        (respond s ⟨.put, .contactByEmail lead.email, some (contactDataA lead listId)⟩).2⟩ := by
  unfold conflictStageA
  dsimp only
  rw [hok]
  simp

/-- C1 (amended): in the first `src/api/brevo.js` handler, when the
CREATE's 400 response is classified as a duplicate-e-mail conflict, the
run contains exactly one PUT to `/v3/contacts/{email}` carrying the full
`contactData` payload (which includes the `SMS`/`TELEFONO` phone
attributes whenever a phone was given), and if that PUT is classified
successful the handler terminates with HTTP 200 Success.  (The
`src/server.js` route instead treats the duplicate-e-mail 400 as success
without any PUT.) -/
theorem c1_update_by_email (σ : Type) (respond : σ → CrmCall → BrevoResponse × σ)
    (s0 : σ) (env : Env) (k : String) (lead : Lead)
    (henv : env.apiKey = some k) (hval : firstVErrAB lead = none)
    (h400 : (respond s0 ⟨.post, .contacts,
      some (contactDataA lead (listIdOfEnv 2 env))⟩).1.status = 400)
    (hdup : isEmailDupA
      (handleBrevoResponse (respond s0 ⟨.post, .contacts,
        some (contactDataA lead (listIdOfEnv 2 env))⟩).1).code
      (jsOrStr (handleBrevoResponse (respond s0 ⟨.post, .contacts,
        some (contactDataA lead (listIdOfEnv 2 env))⟩).1).message msgUnknown) = true) :
    (handlerAFromLead respond s0 env lead).calls.countP
      (fun c => c.method == HttpMethod.put &&
        c.payload == some (contactDataA lead (listIdOfEnv 2 env))) = 1 ∧
    (lead.phone ≠ "" →
      ("SMS", AttrVal.str (phoneLocalOf lead.phone)) ∈
        (contactDataA lead (listIdOfEnv 2 env)).attributes) ∧
    ((handleBrevoResponse (respond
        (respond s0 ⟨.post, .contacts, some (contactDataA lead (listIdOfEnv 2 env))⟩).2
        ⟨.put, .contactByEmail lead.email,
          some (contactDataA lead (listIdOfEnv 2 env))⟩).1).ok = true →
      (handlerAFromLead respond s0 env lead).out.status = 200 ∧
      (handlerAFromLead respond s0 env lead).out.success = some true) := by
  have hnotok := hbr_400_not_ok _ h400
  have hrun : handlerAFromLead respond s0 env lead =
      conflictStageA respond
        (respond s0 ⟨.post, .contacts, some (contactDataA lead (listIdOfEnv 2 env))⟩).2
        lead (listIdOfEnv 2 env)
        (respond s0 ⟨.post, .contacts, some (contactDataA lead (listIdOfEnv 2 env))⟩).1.status
        (handleBrevoResponse (respond s0 ⟨.post, .contacts,
          some (contactDataA lead (listIdOfEnv 2 env))⟩).1).code
        (jsOrStr (handleBrevoResponse (respond s0 ⟨.post, .contacts,
          some (contactDataA lead (listIdOfEnv 2 env))⟩).1).message msgUnknown)
        [⟨.post, .contacts, some (contactDataA lead (listIdOfEnv 2 env))⟩] := by
    unfold handlerAFromLead
    rw [hval, henv]
    dsimp only
    rw [hnotok, h400, hdup]
    simp
  refine ⟨?_, ?_, ?_⟩
  · rw [hrun, conflictStageA_put_count]
    simp
  · intro hph
    by_cases hc : lead.company = "" <;> simp [contactDataA, hph, hc]
  · intro hok
    rw [hrun, conflictStageA_put_ok _ _ _ _ _ _ _ _ _ hok]
    simp [okOutA]

/-- C1 witness: the amended theorem at a concrete lead, a
duplicate-e-mail CREATE answer and a 204 PUT answer. -/
theorem c1_update_by_email_witness :
    (handlerAFromLead (oracleOf [respDupEmail, respNoContent]) 0 envFix leadFix).calls.countP
      (fun c => c.method == HttpMethod.put &&
        c.payload == some (contactDataA leadFix (listIdOfEnv 2 envFix))) = 1 ∧
    (leadFix.phone ≠ "" →
      ("SMS", AttrVal.str (phoneLocalOf leadFix.phone)) ∈
        (contactDataA leadFix (listIdOfEnv 2 envFix)).attributes) ∧
    ((handleBrevoResponse ((oracleOf [respDupEmail, respNoContent])
        ((oracleOf [respDupEmail, respNoContent]) 0 ⟨.post, .contacts,
          some (contactDataA leadFix (listIdOfEnv 2 envFix))⟩).2
        ⟨.put, .contactByEmail leadFix.email,
          some (contactDataA leadFix (listIdOfEnv 2 envFix))⟩).1).ok = true →
      (handlerAFromLead (oracleOf [respDupEmail, respNoContent]) 0 envFix leadFix).out.status = 200 ∧
      (handlerAFromLead (oracleOf [respDupEmail, respNoContent]) 0 envFix leadFix).out.success = some true) :=
  c1_update_by_email Nat (oracleOf [respDupEmail, respNoContent]) 0 envFix "key" leadFix
    rfl (by decide) (by decide) (by decide)

/-! ## C2: phone-conflict retry without phone -/

/-- C2 counterexample: the claim says every 400 phone-conflict CREATE
answer leads to a re-POST without the phone attribute.  When the
phone-conflict response also carries code `duplicate_parameter`, the
second `src/api/brevo.js` handler instead PUTs first, and when that PUT
succeeds it answers 200 ("Contacto actualizado exitosamente") having
issued no phone-less POST at all. -/
theorem c2_counterexample :
    respSMSDup.status = 400 ∧
    isPhoneConflictB (jsOptOr respSMSDup.message msgUnknown) = true ∧
    (handlerBFromLead (oracleOf [respSMSDup, respOkJson]) 0 envFix leadFix).out.status = 200 ∧
    (handlerBFromLead (oracleOf [respSMSDup, respOkJson]) 0 envFix leadFix).out.message =
      some msgUpdatedOk ∧
    (handlerBFromLead (oracleOf [respSMSDup, respOkJson]) 0 envFix leadFix).calls.countP
      (fun c => c.payload == some (contactDataBNoPhone leadFix (listIdOfEnv 2 envFix))) = 0 := by
  refine ⟨rfl, by decide, ?_, ?_, ?_⟩ <;> decide

/-- C2 (amended): in the second `src/api/brevo.js` handler, when the
CREATE's 400 JSON response message indicates a phone conflict and the
response is *not* also classified as a duplicate (code
`duplicate_parameter` or a message containing "duplicate" — in which case
an update-by-email PUT is attempted first), the handler re-POSTs the
payload minus the phone attribute as its only remediation: on a 2xx retry
it answers 200 with the "phone not associated" note, otherwise it answers
500 having issued no further call. -/
theorem c2_phone_conflict_retry (σ : Type) (respond : σ → CrmCall → BrevoResponse × σ)
    (s0 : σ) (env : Env) (k : String) (lead : Lead)
    (henv : env.apiKey = some k) (hval : firstVErrAB lead = none)
    (hct : (respond s0 ⟨.post, .contacts,
      some (contactDataB lead (listIdOfEnv 2 env))⟩).1.ctJson = true)
    (hparse : (respond s0 ⟨.post, .contacts,
      some (contactDataB lead (listIdOfEnv 2 env))⟩).1.parses = true)
    (h400 : (respond s0 ⟨.post, .contacts,
      some (contactDataB lead (listIdOfEnv 2 env))⟩).1.status = 400)
    (hconf : isPhoneConflictB (jsOptOr (respond s0 ⟨.post, .contacts,
      some (contactDataB lead (listIdOfEnv 2 env))⟩).1.message msgUnknown) = true)
    (hnd : isDupB (respond s0 ⟨.post, .contacts,
        some (contactDataB lead (listIdOfEnv 2 env))⟩).1.code
      (jsOptOr (respond s0 ⟨.post, .contacts,
        some (contactDataB lead (listIdOfEnv 2 env))⟩).1.message msgUnknown) = false) :
    (handlerBFromLead respond s0 env lead).calls =
      [⟨.post, .contacts, some (contactDataB lead (listIdOfEnv 2 env))⟩,
       ⟨.post, .contacts, some (contactDataBNoPhone lead (listIdOfEnv 2 env))⟩] ∧
    (200 ≤ (respond (respond s0 ⟨.post, .contacts,
        some (contactDataB lead (listIdOfEnv 2 env))⟩).2
        ⟨.post, .contacts, some (contactDataBNoPhone lead (listIdOfEnv 2 env))⟩).1.status ∧
      (respond (respond s0 ⟨.post, .contacts,
        some (contactDataB lead (listIdOfEnv 2 env))⟩).2
        ⟨.post, .contacts, some (contactDataBNoPhone lead (listIdOfEnv 2 env))⟩).1.status ≤ 299 →
      (handlerBFromLead respond s0 env lead).out = okOutB msgCreatedNoPhone lead) ∧
    (¬(200 ≤ (respond (respond s0 ⟨.post, .contacts,
        some (contactDataB lead (listIdOfEnv 2 env))⟩).2
        ⟨.post, .contacts, some (contactDataBNoPhone lead (listIdOfEnv 2 env))⟩).1.status ∧
      (respond (respond s0 ⟨.post, .contacts,
        some (contactDataB lead (listIdOfEnv 2 env))⟩).2
        ⟨.post, .contacts, some (contactDataBNoPhone lead (listIdOfEnv 2 env))⟩).1.status ≤ 299) →
      (handlerBFromLead respond s0 env lead).out.status = 500) := by
  have hrun : handlerBFromLead respond s0 env lead =
      handlerBPhoneStage respond
        (respond s0 ⟨.post, .contacts, some (contactDataB lead (listIdOfEnv 2 env))⟩).2
        lead (listIdOfEnv 2 env)
        (jsOptOr (respond s0 ⟨.post, .contacts,
          some (contactDataB lead (listIdOfEnv 2 env))⟩).1.message msgUnknown)
        [⟨.post, .contacts, some (contactDataB lead (listIdOfEnv 2 env))⟩] := by
    unfold handlerBFromLead
    rw [hval, henv]
    dsimp only
    rw [hct, hparse, h400, hnd]
    norm_num
  rw [hrun]
  unfold handlerBPhoneStage
  dsimp only
  rw [hconf]
  by_cases h2 : 200 ≤ (respond (respond s0 ⟨.post, .contacts,
      some (contactDataB lead (listIdOfEnv 2 env))⟩).2
      ⟨.post, .contacts, some (contactDataBNoPhone lead (listIdOfEnv 2 env))⟩).1.status ∧
    (respond (respond s0 ⟨.post, .contacts,
      some (contactDataB lead (listIdOfEnv 2 env))⟩).2
      ⟨.post, .contacts, some (contactDataBNoPhone lead (listIdOfEnv 2 env))⟩).1.status ≤ 299 <;>
    simp [h2, outErrNoOk]

/-- C2 witness: the amended theorem at a concrete lead, a phone-conflict
CREATE answer without the duplicate code, and a 201 retry answer. -/
theorem c2_phone_conflict_retry_witness :
    (handlerBFromLead (oracleOf [respSMSConflictNoCode, respCreated]) 0 envFix leadFix).calls =
      [⟨.post, .contacts, some (contactDataB leadFix (listIdOfEnv 2 envFix))⟩,
       ⟨.post, .contacts, some (contactDataBNoPhone leadFix (listIdOfEnv 2 envFix))⟩] ∧
    (200 ≤ ((oracleOf [respSMSConflictNoCode, respCreated])
        ((oracleOf [respSMSConflictNoCode, respCreated]) 0 ⟨.post, .contacts,
          some (contactDataB leadFix (listIdOfEnv 2 envFix))⟩).2
        ⟨.post, .contacts, some (contactDataBNoPhone leadFix (listIdOfEnv 2 envFix))⟩).1.status ∧
      ((oracleOf [respSMSConflictNoCode, respCreated])
        ((oracleOf [respSMSConflictNoCode, respCreated]) 0 ⟨.post, .contacts,
          some (contactDataB leadFix (listIdOfEnv 2 envFix))⟩).2
        ⟨.post, .contacts, some (contactDataBNoPhone leadFix (listIdOfEnv 2 envFix))⟩).1.status ≤ 299 →
      (handlerBFromLead (oracleOf [respSMSConflictNoCode, respCreated]) 0 envFix leadFix).out =
        okOutB msgCreatedNoPhone leadFix) ∧
    (¬(200 ≤ ((oracleOf [respSMSConflictNoCode, respCreated])
        ((oracleOf [respSMSConflictNoCode, respCreated]) 0 ⟨.post, .contacts,
          some (contactDataB leadFix (listIdOfEnv 2 envFix))⟩).2
        ⟨.post, .contacts, some (contactDataBNoPhone leadFix (listIdOfEnv 2 envFix))⟩).1.status ∧
      ((oracleOf [respSMSConflictNoCode, respCreated])
        ((oracleOf [respSMSConflictNoCode, respCreated]) 0 ⟨.post, .contacts,
          some (contactDataB leadFix (listIdOfEnv 2 envFix))⟩).2
        ⟨.post, .contacts, some (contactDataBNoPhone leadFix (listIdOfEnv 2 envFix))⟩).1.status ≤ 299) →
      (handlerBFromLead (oracleOf [respSMSConflictNoCode, respCreated]) 0 envFix leadFix).out.status = 500) :=
  c2_phone_conflict_retry Nat (oracleOf [respSMSConflictNoCode, respCreated]) 0 envFix "key" leadFix
    rfl (by decide) rfl rfl rfl (by decide) (by decide)

/-! ## C8: name splitting -/

/-- C8 counterexample: the claim says the last-name attribute is the
remaining whitespace-delimited tokens joined by a single space.  For
`"Jane  Doe"` (two spaces) the tokens after the first are `["Doe"]`,
joined `"Doe"`, but the source's `split(' ')` keeps the empty segment and
produces `" Doe"`. -/
theorem c8_counterexample :
    nombreOf "Jane  Doe" = "Jane" ∧ apellidosOf "Jane  Doe" = " Doe" ∧
    specWhitespaceTokens "Jane  Doe" = ["Jane", "Doe"] ∧
    specLastJoined "Jane  Doe" = "Doe" ∧ (" Doe" : String) ≠ "Doe" := by
  refine ⟨by decide, by decide, by decide, by decide, by decide⟩

theorem mk_data (s : String) : String.mk s.data = s := rfl

theorem mk_eq_empty (l : List Char) : String.mk l = "" ↔ l = [] := by
  constructor
  · intro h
    exact congrArg String.data h
  · intro h
    rw [h]

theorem jsOrStr_empty_default (x : String) : jsOrStr x "" = x := by
  unfold jsOrStr
  split <;> simp_all

/-- C8 (amended): the payload builder splits on the single space character
only: the first-name attribute is the text before the first space (the
whole name when there is none) and the last-name attribute is exactly the
text after the first space — consecutive spaces or tabs are not collapsed
into token delimiters.  The claim's two examples do hold: `"Jane Doe"`
gives first `"Jane"`, last `"Doe"`, and `"Madonna"` gives first
`"Madonna"`, last `""`. -/
theorem c8_name_split (s : String) (hs : s.data.head? ≠ some ' ') :
    (' ' ∉ s.data → nombreOf s = s ∧ apellidosOf s = "") ∧
    (' ' ∈ s.data → s = nombreOf s ++ " " ++ apellidosOf s ∧ ' ' ∉ (nombreOf s).data) ∧
    nombreOf "Jane Doe" = "Jane" ∧ apellidosOf "Jane Doe" = "Doe" ∧
    nombreOf "Madonna" = "Madonna" ∧ apellidosOf "Madonna" = "" := by
  refine ⟨?_, ?_, by decide, by decide, by decide, by decide⟩
  · intro hnm
    have hsplit := splitOnCharList_of_not_mem ' ' s.data hnm
    constructor
    · unfold nombreOf jsSplitOnSpace
      rw [hsplit]
      simp [mk_data, jsOrStr, ite_self]
    · unfold apellidosOf jsSplitOnSpace
      rw [hsplit]
      simp [joinWith, jsOrStr_empty_default]
  · intro hmem
    rcases hsp : splitOnCharList ' ' s.data with _ | ⟨h, t⟩
    · exact absurd hsp (splitOnCharList_ne_nil ' ' s.data)
    have ht : t ≠ [] := by
      have := splitOnCharList_tail_ne_nil ' ' s.data hmem
      rw [hsp] at this
      simpa using this
    have hh : h ≠ [] := by
      cases hd : s.data with
      | nil => rw [hd] at hmem; simp at hmem
      | cons x xs =>
        have hx : ¬x = ' ' := by
          rw [hd] at hs
          simpa using hs
        rw [hd] at hsp
        simp only [splitOnCharList, if_neg hx] at hsp
        rcases hs2 : splitOnCharList ' ' xs with _ | ⟨h2, t2⟩
        · exact absurd hs2 (splitOnCharList_ne_nil ' ' xs)
        · rw [hs2] at hsp
          have : x :: h2 = h := (List.cons.injEq _ _ _ _ ▸ hsp).1
          intro hcon
          rw [hcon] at this
          exact List.cons_ne_nil _ _ this
    have hnosep : ∀ x ∈ h, x ≠ ' ' := by
      have := splitOnCharList_head_not_sep ' ' s.data
      rw [hsp] at this
      simpa using this
    have hjoin : h ++ ' ' :: joinWithChar ' ' t = s.data := by
      have := joinWithChar_splitOnCharList ' ' s.data
      rw [hsp] at this
      rcases t with _ | ⟨y, ys⟩
      · exact absurd rfl ht
      · simpa [joinWithChar] using this
    have hnombre : nombreOf s = String.mk h := by
      unfold nombreOf jsSplitOnSpace
      rw [hsp]
      simp only [List.map_cons, List.headD_cons]
      unfold jsOrStr
      rw [if_neg (by simpa [mk_eq_empty] using hh)]
    have hape : apellidosOf s = String.mk (joinWithChar ' ' t) := by
      unfold apellidosOf jsSplitOnSpace
      rw [hsp]
      simp only [List.map_cons, List.tail_cons]
      rw [jsOrStr_empty_default]
      have : (" " : String) = String.mk [' '] := rfl
      rw [this, joinWith_map_mk]
    refine ⟨?_, ?_⟩
    · rw [hnombre, hape, mk_append, mk_append]
      conv_lhs => rw [← mk_data s, ← hjoin]
      simp
    · rw [hnombre]
      intro hcon
      exact hnosep ' ' hcon rfl

/-- C8 witness: the amended theorem at the name `"Jane Doe"`. -/
theorem c8_name_split_witness :
    (' ' ∉ ("Jane Doe" : String).data →
      nombreOf "Jane Doe" = "Jane Doe" ∧ apellidosOf "Jane Doe" = "") ∧
    (' ' ∈ ("Jane Doe" : String).data →
      ("Jane Doe" : String) = nombreOf "Jane Doe" ++ " " ++ apellidosOf "Jane Doe" ∧
      ' ' ∉ (nombreOf "Jane Doe").data) ∧
    nombreOf "Jane Doe" = "Jane" ∧ apellidosOf "Jane Doe" = "Doe" ∧
    nombreOf "Madonna" = "Madonna" ∧ apellidosOf "Madonna" = "" :=
  c8_name_split "Jane Doe" (by decide)

/-! ## C5: idempotence against the CRM model -/

theorem contactDataA_email (lead : Lead) (i : Int) : (contactDataA lead i).email = lead.email := rfl

theorem contactDataA_listIds (lead : Lead) (i : Int) : (contactDataA lead i).listIds = [i] := rfl

/-- Submitting a fresh lead to the empty CRM: the POST creates the
contact. -/
theorem crmRespond_post_empty (lead : Lead) (i : Int) :
    crmRespond [] ⟨.post, .contacts, some (contactDataA lead i)⟩ =
      (⟨201, true, "json-created", true, none, none, some "1"⟩,
       [⟨lead.email, (contactDataA lead i).attributes, [i]⟩]) := by
  unfold crmRespond
  dsimp only
  cases h : smsAttrOf (contactDataA lead i).attributes <;>
    simp [h, contactDataA_email, contactDataA_listIds]

/-- Re-POSTing the same lead against the CRM state it created: the CRM
reports the duplicate e-mail. -/
theorem crmRespond_post_dup (lead : Lead) (i : Int) (attrs : List (String × AttrVal)) :
    crmRespond [⟨lead.email, attrs, [i]⟩] ⟨.post, .contacts, some (contactDataA lead i)⟩ =
      (⟨400, true, "json-dup-email", true, some "duplicate_parameter",
        some "Contact already exist", none⟩,
       [⟨lead.email, attrs, [i]⟩]) := by
  unfold crmRespond
  dsimp only
  simp [contactDataA_email]

/-- PUTting the same payload to the contact it created: the CRM updates
it in place (204), leaving the state unchanged. -/
theorem crmRespond_put_self (lead : Lead) (i : Int) :
    crmRespond [⟨lead.email, (contactDataA lead i).attributes, [i]⟩]
      ⟨.put, .contactByEmail lead.email, some (contactDataA lead i)⟩ =
      (⟨204, false, "", false, none, none, none⟩,
       [⟨lead.email, (contactDataA lead i).attributes, [i]⟩]) := by
  unfold crmRespond
  dsimp only
  cases h : smsAttrOf (contactDataA lead i).attributes <;>
    simp [h, contactDataA_email, contactDataA_listIds]

/-- C5: submitting the same validated lead twice (against the CRM model
of §4.3) succeeds both times; the second submission resolves through the
update path — its trace is the CREATE POST followed by the PUT keyed by
the e-mail, with no second contact created — and the terminal CRM state
equals the state after the first submission (a single contact with the
lead's attributes). -/
theorem c5_idempotent (env : Env) (k : String) (lead : Lead)
    (henv : env.apiKey = some k) (hval : firstVErrAB lead = none) :
    (handlerAFromLead crmRespond [] env lead).out.status = 200 ∧
    (handlerAFromLead crmRespond (handlerAFromLead crmRespond [] env lead).state env lead).out.status = 200 ∧
    (handlerAFromLead crmRespond (handlerAFromLead crmRespond [] env lead).state env lead).calls =
      [⟨.post, .contacts, some (contactDataA lead (listIdOfEnv 2 env))⟩,
       ⟨.put, .contactByEmail lead.email, some (contactDataA lead (listIdOfEnv 2 env))⟩] ∧
    (handlerAFromLead crmRespond (handlerAFromLead crmRespond [] env lead).state env lead).state =
      (handlerAFromLead crmRespond [] env lead).state ∧
    (handlerAFromLead crmRespond [] env lead).state.length = 1 := by
  have hbr201 : handleBrevoResponse ⟨201, true, "json-created", true, none, none, some "1"⟩ =
      ⟨true, none, none, "Contacto creado exitosamente"⟩ := by decide
  have hbr400 : handleBrevoResponse ⟨400, true, "json-dup-email", true,
      some "duplicate_parameter", some "Contact already exist", none⟩ =
      ⟨false, some 400, some "duplicate_parameter", "Contact already exist"⟩ := by decide
  have hbr204 : handleBrevoResponse ⟨204, false, "", false, none, none, none⟩ =
      ⟨true, some 204, none, "Contacto creado o actualizado correctamente en Brevo"⟩ := by decide
  have h1 : handlerAFromLead crmRespond [] env lead =
      ⟨okOutA ⟨true, none, none, "Contacto creado exitosamente"⟩ lead,
        [⟨.post, .contacts, some (contactDataA lead (listIdOfEnv 2 env))⟩],
        [⟨lead.email, (contactDataA lead (listIdOfEnv 2 env)).attributes, [listIdOfEnv 2 env]⟩]⟩ := by
    unfold handlerAFromLead
    rw [hval, henv]
    dsimp only
    rw [crmRespond_post_empty, hbr201]
    simp
  have h2 : handlerAFromLead crmRespond
      [⟨lead.email, (contactDataA lead (listIdOfEnv 2 env)).attributes, [listIdOfEnv 2 env]⟩] env lead =
      ⟨okOutA ⟨true, some 204, none, "Contacto creado o actualizado correctamente en Brevo"⟩ lead,
        [⟨.post, .contacts, some (contactDataA lead (listIdOfEnv 2 env))⟩,
         ⟨.put, .contactByEmail lead.email, some (contactDataA lead (listIdOfEnv 2 env))⟩],
        [⟨lead.email, (contactDataA lead (listIdOfEnv 2 env)).attributes, [listIdOfEnv 2 env]⟩]⟩ := by
    unfold handlerAFromLead
    rw [hval, henv]
    dsimp only
    rw [crmRespond_post_dup, hbr400]
    have hdup : isEmailDupA (some "duplicate_parameter")
        (jsOrStr "Contact already exist" msgUnknown) = true := by decide
    simp only [hdup]
    unfold conflictStageA
    dsimp only
    rw [crmRespond_put_self, hbr204]
    simp
  rw [h1]
  dsimp only
  rw [h2]
  simp [okOutA]

/-- C5 witness: the theorem at a concrete lead and environment. -/
theorem c5_idempotent_witness :
    (handlerAFromLead crmRespond [] envFix leadFix).out.status = 200 ∧
    (handlerAFromLead crmRespond (handlerAFromLead crmRespond [] envFix leadFix).state envFix leadFix).out.status = 200 ∧
    (handlerAFromLead crmRespond (handlerAFromLead crmRespond [] envFix leadFix).state envFix leadFix).calls =
      [⟨.post, .contacts, some (contactDataA leadFix (listIdOfEnv 2 envFix))⟩,
       ⟨.put, .contactByEmail leadFix.email, some (contactDataA leadFix (listIdOfEnv 2 envFix))⟩] ∧
    (handlerAFromLead crmRespond (handlerAFromLead crmRespond [] envFix leadFix).state envFix leadFix).state =
      (handlerAFromLead crmRespond [] envFix leadFix).state ∧
    (handlerAFromLead crmRespond [] envFix leadFix).state.length = 1 :=
  c5_idempotent envFix "key" leadFix rfl (by decide)

end Rxlab
